import Mathlib

/-!
Verification development for the reception / channel-sensing core of
`src/base/phyLayer/BaseDecider.cc`.

Simulated time (`simtime_t`) and received power (`double`) are embedded as
rationals.  The mutable members of `BaseDecider` become an explicit
`DeciderState` record; calls into the host PHY layer (`sendUp`,
`sendControlMsg`, `cancelScheduledMessage`) become an output list of
`PhyCall` events, and the environment the PHY provides (`getSimTime`,
`getChannelInfo`, `getThermalNoise`) becomes an `Env` record.  Pointer
identity of `AirFrame` / `ChannelSenseRequest` objects is embedded as a
numeric `id` field; a null pointer becomes `Option.none`.
-/

namespace Veins

/-- The largest finite IEEE-754 double, `DBL_MAX`, as an exact rational. -/
def dblMax : ℚ := (2 ^ 53 - 1) * 2 ^ 971

/-- Modelled from the spec: the Interval Function (`Mapping` /
`ConstMapping` of MappingUtils, which is not part of the sources).  A
finite list of (time, value) key entries over the time domain with step
interpolation: point evaluation returns the value of the greatest key at
or before the queried time, and the out-of-range value `0.0` (the value
`MappingUtils::createMapping(0.0, DimensionSet::timeDomain)` is built
with) when no key lies at or before it. -/
structure Mapping where
  entries : List (ℚ × ℚ)
deriving DecidableEq

/-- The key entry with the greatest key at or before the cutoff `t`
(the head entry winning ties), or `none` when every key lies after `t`. -/
def bestEntry (t : ℚ) : List (ℚ × ℚ) → Option (ℚ × ℚ)
  | [] => none
  | e :: rest =>
    if e.1 ≤ t then
      match bestEntry t rest with
      | none => some e
      | some f => if e.1 < f.1 then some f else some e
    else bestEntry t rest

/-- Modelled from the spec: point evaluation of an Interval Function
(`ConstMapping::getValue`). -/
def Mapping.getValue (m : Mapping) (t : ℚ) : ℚ :=
  match bestEntry t m.entries with
  | none => 0
  | some e => e.2

/-- Modelled from the spec: the empty mapping produced by
`MappingUtils::createMapping(0.0, DimensionSet::timeDomain)` — no key
entries, out-of-range value `0.0`. -/
def Mapping.empty : Mapping := ⟨[]⟩

/-- Modelled from the spec: pointwise sum of two Interval Functions
(`MappingUtils::add`), realised on the merged key set. -/
def Mapping.add (m1 m2 : Mapping) : Mapping :=
  ⟨(m1.entries.map fun e => (e.1, m1.getValue e.1 + m2.getValue e.1)) ++
   (m2.entries.map fun e => (e.1, m1.getValue e.1 + m2.getValue e.1))⟩

/-- Modelled from the spec: `MappingUtils::findMax` over an interval.
Per the source comment in `calcChannelSenseRSSI`, the result is "the
maximum value between (and including) the interval-borders", and
"findMax() returns -DBL_MAX on empty mappings" (comment in `answerCSR`). -/
def Mapping.findMax (m : Mapping) (a b : ℚ) : ℚ :=
  if m.entries.isEmpty then -dblMax
  else
    ((b :: (m.entries.map Prod.fst).filter (fun k => decide (a ≤ k ∧ k ≤ b))).map
      m.getValue).foldl max (m.getValue a)

/-- An `AirFrame` together with its `Signal`: pointer identity (`id`),
`getSignalStart`, `getSignalLength` and `getReceivingPower`. -/
structure AirFrame where
  id : Nat
  signalStart : ℚ
  signalLength : ℚ
  recvPower : Mapping
deriving DecidableEq

/-- The sense modes of a `ChannelSenseRequest`. -/
inductive SenseMode where
  | UNTIL_IDLE
  | UNTIL_BUSY
deriving DecidableEq

/-- A `ChannelSenseRequest`: pointer identity (`id`), `getSenseMode` and
`getSenseTimeout`. -/
structure ChannelSenseRequest where
  id : Nat
  senseMode : SenseMode
  senseTimeout : ℚ
deriving DecidableEq

/-- A `ChannelState` value: the idle flag and the RSSI. -/
structure ChannelState where
  isIdle : Bool
  rssi : ℚ
deriving DecidableEq

/-- A call the decider makes into the host PHY layer. -/
inductive PhyCall where
  | sendUp (frame : AirFrame) (result : Bool)
  | sendControlMsg (request : ChannelSenseRequest) (result : ChannelState)
  | cancelScheduledMessage (request : ChannelSenseRequest)
deriving DecidableEq

/-- The environment the PHY layer provides to the decider:
`getSimTime`, `getChannelInfo` and `getThermalNoise`. -/
structure Env where
  now : ℚ
  channelInfo : ℚ → ℚ → List AirFrame
  thermalNoise : ℚ → ℚ → Option Mapping

/-- The mutable members of `BaseDecider`: `currentSignal` (an
`AirFrame*`/state pair, the null pointer embedded as `none`),
`isChannelIdle`, `currentChannelSenseRequest` (a
`ChannelSenseRequest*`/start-time pair) and the configured
`sensitivity`. -/
structure DeciderState where
  currentSignalFirst : Option AirFrame
  currentSignalSecond : Int
  isChannelIdle : Bool
  csrFirst : Option ChannelSenseRequest
  csrSecond : ℚ
  sensitivity : ℚ
deriving DecidableEq

/-- The signal-state constant `NEW`. -/
def NEW : Int := 0

/-- The signal-state constant `EXPECT_HEADER`. -/
def EXPECT_HEADER : Int := 1

/-- The signal-state constant `EXPECT_END`. -/
def EXPECT_END : Int := 2

/-- The value a decider operation returns to the PHY layer: a next wake
time, the `notAgain` sentinel, or an `opp_error` abort of the run. -/
inductive DResult where
  | next (t : ℚ)
  | notAgain
  | fatal
deriving DecidableEq

/-- Source `BaseDecider::getSignalState`: the tracked state of `frame`, `NEW`
if it is not the currently tracked frame. -/
def getSignalState (s : DeciderState) (frame : AirFrame) : Int :=
  match s.currentSignalFirst with
  | some cur => if frame.id = cur.id then s.currentSignalSecond else NEW
  | none => NEW

/-- The `modeFulfilled` local of `BaseDecider::canAnswerCSR`. -/
def modeFulfilled (s : DeciderState) (req : ChannelSenseRequest) : Bool :=
  match req.senseMode with
  | SenseMode.UNTIL_IDLE => s.isChannelIdle
  | SenseMode.UNTIL_BUSY => !s.isChannelIdle

/-- Source `BaseDecider::canAnswerCSR`: the CSR mode is fulfilled or the
timeout instant is reached (an equality test on the current time). -/
def canAnswerCSR (env : Env) (s : DeciderState) : Bool :=
  match s.csrFirst with
  | none => false
  | some req => modeFulfilled s req || decide (env.now = s.csrSecond + req.senseTimeout)

/-- Source `BaseDecider::calculateRSSIMapping`: sum thermal noise (when
present) and the receiving-power mappings of all frames the channel
reports for the window, skipping `exclude`, on top of the empty mapping
`createMapping(0.0, DimensionSet::timeDomain)`. -/
def calculateRSSIMapping (env : Env) (startT endT : ℚ) (exclude : Option AirFrame) :
    Mapping :=
  let airFrames := env.channelInfo startT endT
  let resultMap : Mapping :=
    match env.thermalNoise startT endT with
    | some tn => Mapping.add Mapping.empty tn
    | none => Mapping.empty
  airFrames.foldl
    (fun acc f =>
      if (match exclude with | some e => decide (f.id = e.id) | none => false) then acc
      else Mapping.add f.recvPower acc)
    resultMap

/-- Source `BaseDecider::calcChannelSenseRSSI`: the maximum of the RSSI mapping
between (and including) the interval borders. -/
def calcChannelSenseRSSI (env : Env) (startT endT : ℚ) : ℚ :=
  (calculateRSSIMapping env startT endT none).findMax startT endT

/-- Source `BaseDecider::getChannelState`: the idle flag paired with the RSSI
of the degenerate window `[now, now]`. -/
def getChannelState (env : Env) (s : DeciderState) : ChannelState :=
  ⟨s.isChannelIdle, calcChannelSenseRSSI env env.now env.now⟩

/-- Source `BaseDecider::answerCSR`: compute the RSSI over
`[request start, now]`, clamp a negative value (the empty-mapping
sentinel) to `0`, deliver `(isChannelIdle, rssi)` through
`sendControlMsg` and clear the request record.  The null-request case
returns unchanged; every call site establishes a non-null request. -/
def answerCSR (env : Env) (s : DeciderState) : DeciderState × List PhyCall :=
  match s.csrFirst with
  | none => (s, [])
  | some req =>
    let rssiValue := calcChannelSenseRSSI env s.csrSecond env.now
    let rssiValue := if rssiValue < 0 then 0 else rssiValue
    ({ s with csrFirst := none },
     [PhyCall.sendControlMsg req ⟨s.isChannelIdle, rssiValue⟩])

/-- Source `BaseDecider::setChannelIdleStatus`: set the flag, then re-check the
outstanding sense request; when it can now be answered, cancel its
scheduled timeout message and answer it. -/
def setChannelIdleStatus (env : Env) (s : DeciderState) (isIdle : Bool) :
    DeciderState × List PhyCall :=
  let s1 := { s with isChannelIdle := isIdle }
  if canAnswerCSR env s1 then
    match s1.csrFirst with
    | some req =>
      let r := answerCSR env s1
      (r.1, PhyCall.cancelScheduledMessage req :: r.2)
    | none => (s1, [])
  else (s1, [])

/-- Source `BaseDecider::processNewSignal`: reject when another frame is being
received or the start-time receiving power is below `sensitivity`;
otherwise record the frame in state `EXPECT_END`, turn the channel busy
and return the frame's end time. -/
def processNewSignal (env : Env) (s : DeciderState) (frame : AirFrame) :
    DResult × DeciderState × List PhyCall :=
  match s.currentSignalFirst with
  | some _ => (DResult.notAgain, s, [])
  | none =>
    let recvPower := frame.recvPower.getValue frame.signalStart
    if recvPower < s.sensitivity then (DResult.notAgain, s, [])
    else
      let s1 := { s with currentSignalFirst := some frame,
                         currentSignalSecond := EXPECT_END }
      let r := setChannelIdleStatus env s1 false
      (DResult.next (frame.signalStart + frame.signalLength), r.1, r.2)

/-- Source `BaseDecider::processSignalEnd`: hand the frame up with a positive
`DeciderResult`, clear the current-signal record, turn the channel idle
and return `notAgain`. -/
def processSignalEnd (env : Env) (s : DeciderState) (frame : AirFrame) :
    DResult × DeciderState × List PhyCall :=
  let s1 := { s with currentSignalFirst := none }
  let r := setChannelIdleStatus env s1 true
  (DResult.notAgain, r.1, PhyCall.sendUp frame true :: r.2)

/-- Modelled from the spec: `BaseDecider::processSignalHeader` is
declared in the header (not part of the sources); the base decider does
not handle signal headers, so reaching it aborts with `opp_error`. -/
def processSignalHeader (_env : Env) (s : DeciderState) (_frame : AirFrame) :
    DResult × DeciderState × List PhyCall :=
  (DResult.fatal, s, [])

/-- Modelled from the spec: `BaseDecider::processUnknownSignal` is
declared in the header (not part of the sources); an unknown signal
state aborts with `opp_error`. -/
def processUnknownSignal (_env : Env) (s : DeciderState) (_frame : AirFrame) :
    DResult × DeciderState × List PhyCall :=
  (DResult.fatal, s, [])

/-- Source `BaseDecider::processSignal`: dispatch on `getSignalState`. -/
def processSignal (env : Env) (s : DeciderState) (frame : AirFrame) :
    DResult × DeciderState × List PhyCall :=
  let st := getSignalState s frame
  if st = NEW then processNewSignal env s frame
  else if st = EXPECT_HEADER then processSignalHeader env s frame
  else if st = EXPECT_END then processSignalEnd env s frame
  else processUnknownSignal env s frame

/-- Source `BaseDecider::handleNewSenseRequest`: record the request with start
time `now`; answer immediately when already answerable, otherwise
schedule the timeout wake at `now + senseTimeout`. -/
def handleNewSenseRequest (env : Env) (s : DeciderState)
    (request : ChannelSenseRequest) : DResult × DeciderState × List PhyCall :=
  let now := env.now
  let s1 := { s with csrFirst := some request, csrSecond := now }
  if canAnswerCSR env s1 then
    let r := answerCSR env s1
    (DResult.notAgain, r.1, r.2)
  else
    (DResult.next (now + request.senseTimeout), s1, [])

/-- Source `BaseDecider::handleSenseRequestTimeout`: answer the request. -/
def handleSenseRequestTimeout (env : Env) (s : DeciderState) :
    DeciderState × List PhyCall :=
  answerCSR env s

/-- Source `BaseDecider::handleChannelSenseRequest`: dispatch a fresh request
to `handleNewSenseRequest`; a different request while one is pending is
an `opp_error`; the same request again is its timeout and is answered. -/
def handleChannelSenseRequest (env : Env) (s : DeciderState)
    (request : ChannelSenseRequest) : DResult × DeciderState × List PhyCall :=
  match s.csrFirst with
  | none => handleNewSenseRequest env s request
  | some cur =>
    if cur.id ≠ request.id then (DResult.fatal, s, [])
    else
      let r := handleSenseRequestTimeout env s
      (DResult.notAgain, r.1, r.2)

/-- Recognizer for `sendUp` calls. -/
def isSendUp : PhyCall → Bool
  | PhyCall.sendUp _ _ => true
  | _ => false

/-- The implicit invariant: whenever a current reception is recorded
(`currentSignal.first` non-null), its stored state is `EXPECT_END`. -/
def Inv (s : DeciderState) : Prop :=
  s.currentSignalFirst ≠ none → s.currentSignalSecond = EXPECT_END

/-- Following the spec's words (§4.2): `v` is the maximum of the
total-power function `m` over the HALF-OPEN interval `[a, b)`, with a
negative maximum clamped to zero: `v` is nonnegative, bounds the
function on `[a, b)`, and is attained there unless it is the clamp
value `0`. -/
def specHalfOpenClampedMax (m : Mapping) (a b v : ℚ) : Prop :=
  0 ≤ v ∧ (∀ t, a ≤ t → t < b → m.getValue t ≤ v) ∧
  (v = 0 ∨ ∃ t, a ≤ t ∧ t < b ∧ m.getValue t = v)

/-! Section: Helper lemmas about folded maxima -/

theorem foldl_max_init_le (init : ℚ) (l : List ℚ) : init ≤ l.foldl max init := by
  induction l generalizing init with
  | nil => exact le_refl _
  | cons x l ih => exact le_trans (le_max_left init x) (ih (max init x))

theorem foldl_max_mem_le {x : ℚ} (init : ℚ) {l : List ℚ} (hx : x ∈ l) :
    x ≤ l.foldl max init := by
  induction l generalizing init with
  | nil => cases hx
  | cons y l ih =>
    rcases List.mem_cons.mp hx with rfl | hx'
    · exact le_trans (le_max_right init x) (foldl_max_init_le (max init x) l)
    · exact ih (max init y) hx'

theorem foldl_max_eq_init_or_mem (init : ℚ) (l : List ℚ) :
    l.foldl max init = init ∨ l.foldl max init ∈ l := by
  induction l generalizing init with
  | nil => exact Or.inl rfl
  | cons x l ih =>
    rcases ih (max init x) with h | h
    · rcases le_total init x with hle | hle
      · right
        rw [List.foldl_cons, h, max_eq_right hle]
        exact List.mem_cons_self x l
      · left
        rw [List.foldl_cons, h, max_eq_left hle]
    · right
      exact List.mem_cons_of_mem x h

/-! Section: Helper lemmas about `bestEntry` and `Mapping.getValue` -/

theorem bestEntry_none {t : ℚ} : ∀ {l : List (ℚ × ℚ)}, bestEntry t l = none →
    ∀ e ∈ l, ¬ e.1 ≤ t := by
  intro l
  induction l with
  | nil => intro _ e he; cases he
  | cons a rest ih =>
    intro h e he
    rcases hbe : bestEntry t rest with _ | f <;> rw [bestEntry, hbe] at h <;>
      dsimp only at h
    · by_cases ha : a.1 ≤ t
      · rw [if_pos ha] at h; cases h
      · rw [if_neg ha] at h
        rcases List.mem_cons.mp he with rfl | he'
        · exact ha
        · exact ih hbe e he'
    · by_cases ha : a.1 ≤ t
      · rw [if_pos ha] at h
        by_cases hf : a.1 < f.1
        · rw [if_pos hf] at h; cases h
        · rw [if_neg hf] at h; cases h
      · rw [if_neg ha] at h; cases h

theorem bestEntry_mem {t : ℚ} : ∀ {l : List (ℚ × ℚ)} {e : ℚ × ℚ},
    bestEntry t l = some e → e ∈ l := by
  intro l
  induction l with
  | nil => intro e h; cases h
  | cons a rest ih =>
    intro e h
    rcases hbe : bestEntry t rest with _ | f <;> rw [bestEntry, hbe] at h <;>
      dsimp only at h
    · by_cases ha : a.1 ≤ t
      · rw [if_pos ha] at h
        cases h
        exact List.mem_cons_self a rest
      · rw [if_neg ha] at h; cases h
    · by_cases ha : a.1 ≤ t
      · rw [if_pos ha] at h
        by_cases hf : a.1 < f.1
        · rw [if_pos hf] at h
          cases h
          exact List.mem_cons_of_mem a (ih hbe)
        · rw [if_neg hf] at h
          cases h
          exact List.mem_cons_self a rest
      · rw [if_neg ha] at h
        cases h
        exact List.mem_cons_of_mem a (ih hbe)

theorem bestEntry_le {t : ℚ} : ∀ {l : List (ℚ × ℚ)} {e : ℚ × ℚ},
    bestEntry t l = some e → e.1 ≤ t := by
  intro l
  induction l with
  | nil => intro e h; cases h
  | cons a rest ih =>
    intro e h
    rcases hbe : bestEntry t rest with _ | f <;> rw [bestEntry, hbe] at h <;>
      dsimp only at h
    · by_cases ha : a.1 ≤ t
      · rw [if_pos ha] at h; cases h; exact ha
      · rw [if_neg ha] at h; cases h
    · by_cases ha : a.1 ≤ t
      · rw [if_pos ha] at h
        by_cases hf : a.1 < f.1
        · rw [if_pos hf] at h; cases h; exact ih hbe
        · rw [if_neg hf] at h; cases h; exact ha
      · rw [if_neg ha] at h; cases h; exact ih hbe

theorem bestEntry_max {t : ℚ} : ∀ {l : List (ℚ × ℚ)} {e : ℚ × ℚ},
    bestEntry t l = some e → ∀ f ∈ l, f.1 ≤ t → f.1 ≤ e.1 := by
  intro l
  induction l with
  | nil => intro e h; cases h
  | cons a rest ih =>
    intro e h f hf hft
    rcases hbe : bestEntry t rest with _ | g <;> rw [bestEntry, hbe] at h <;>
      dsimp only at h
    · by_cases ha : a.1 ≤ t
      · rw [if_pos ha] at h
        cases h
        rcases List.mem_cons.mp hf with rfl | hf'
        · exact le_refl _
        · exact absurd hft (bestEntry_none hbe f hf')
      · rw [if_neg ha] at h; cases h
    · by_cases ha : a.1 ≤ t
      · rw [if_pos ha] at h
        by_cases hag : a.1 < g.1
        · rw [if_pos hag] at h
          cases h
          rcases List.mem_cons.mp hf with rfl | hf'
          · exact le_of_lt hag
          · exact ih hbe f hf' hft
        · rw [if_neg hag] at h
          cases h
          rcases List.mem_cons.mp hf with rfl | hf'
          · exact le_refl _
          · exact le_trans (ih hbe f hf' hft) (le_of_not_lt hag)
      · rw [if_neg ha] at h
        cases h
        rcases List.mem_cons.mp hf with rfl | hf'
        · exact absurd hft ha
        · exact ih hbe f hf' hft

theorem bestEntry_congr {t u : ℚ} : ∀ {l : List (ℚ × ℚ)},
    (∀ e ∈ l, (e.1 ≤ t ↔ e.1 ≤ u)) → bestEntry t l = bestEntry u l := by
  intro l
  induction l with
  | nil => intro _; rfl
  | cons a rest ih =>
    intro h
    have ha := h a (List.mem_cons_self a rest)
    have hrest := ih fun e he => h e (List.mem_cons_of_mem a he)
    rw [bestEntry, bestEntry, hrest]
    by_cases h1 : a.1 ≤ t
    · rw [if_pos h1, if_pos (ha.mp h1)]
    · rw [if_neg h1, if_neg fun h2 => h1 (ha.mpr h2)]

theorem getValue_congr {m : Mapping} {t u : ℚ}
    (h : ∀ e ∈ m.entries, (e.1 ≤ t ↔ e.1 ≤ u)) : m.getValue t = m.getValue u := by
  unfold Mapping.getValue
  rw [bestEntry_congr h]

theorem getValue_empty_entries {m : Mapping} (hm : m.entries = []) (t : ℚ) :
    m.getValue t = 0 := by
  unfold Mapping.getValue
  rw [hm]
  rfl

/-- On `[a, b]`, the value of a step mapping at any point is its value at
one of: the left border `a`, or a key of the mapping lying in `[a, b]`. -/
theorem getValue_candidate (m : Mapping) {a b t : ℚ} (hat : a ≤ t) (htb : t ≤ b) :
    m.getValue t = m.getValue a ∨
    ∃ k ∈ m.entries.map Prod.fst, a ≤ k ∧ k ≤ b ∧ m.getValue t = m.getValue k := by
  rcases hbe : bestEntry t m.entries with _ | e
  · left
    apply getValue_congr
    intro f hf
    have hn := bestEntry_none hbe f hf
    exact iff_of_false hn fun h2 => hn (le_trans h2 hat)
  · by_cases hae : a ≤ e.1
    · right
      refine ⟨e.1, List.mem_map_of_mem Prod.fst (bestEntry_mem hbe), hae,
        le_trans (bestEntry_le hbe) htb, ?_⟩
      apply getValue_congr
      intro f hf
      exact ⟨fun h2 => bestEntry_max hbe f hf h2,
             fun h2 => le_trans h2 (bestEntry_le hbe)⟩
    · left
      apply getValue_congr
      intro f hf
      exact ⟨fun h2 => le_of_lt (lt_of_le_of_lt (bestEntry_max hbe f hf h2)
               (lt_of_not_le hae)),
             fun h2 => le_trans h2 hat⟩

/-! Section: Helper lemmas about `Mapping.findMax` -/

theorem findMax_empty {m : Mapping} (hm : m.entries = []) (a b : ℚ) :
    m.findMax a b = -dblMax := by
  unfold Mapping.findMax
  rw [hm]
  rfl

theorem dblMax_pos : 0 < dblMax := by
  unfold dblMax
  norm_num

/-- The maximum query `findMax` bounds the step mapping's value everywhere in `[a, b]`
(borders included), for a mapping with at least one key entry. -/
theorem findMax_ub (m : Mapping) {a b t : ℚ} (hm : m.entries ≠ [])
    (hat : a ≤ t) (htb : t ≤ b) : m.getValue t ≤ m.findMax a b := by
  unfold Mapping.findMax
  rw [if_neg (by simp [List.isEmpty_iff, hm])]
  rcases getValue_candidate m hat htb with h | ⟨k, hk, hak, hkb, h⟩
  · rw [h]
    exact foldl_max_init_le _ _
  · rw [h]
    apply foldl_max_mem_le
    apply List.mem_map_of_mem
    apply List.mem_cons_of_mem
    rw [List.mem_filter]
    exact ⟨hk, by simp [hak, hkb]⟩

/-- The maximum query `findMax` is attained at some point of `[a, b]` (for a mapping with
at least one key entry and a nondegenerate interval). -/
theorem findMax_attained (m : Mapping) {a b : ℚ} (hm : m.entries ≠ [])
    (hab : a ≤ b) : ∃ t, a ≤ t ∧ t ≤ b ∧ m.getValue t = m.findMax a b := by
  unfold Mapping.findMax
  rw [if_neg (by simp [List.isEmpty_iff, hm])]
  rcases foldl_max_eq_init_or_mem (m.getValue a)
      ((b :: (m.entries.map Prod.fst).filter fun k => decide (a ≤ k ∧ k ≤ b)).map
        m.getValue) with h | h
  · exact ⟨a, le_refl a, hab, h.symm⟩
  · rcases List.mem_map.mp h with ⟨c, hc, hceq⟩
    rcases List.mem_cons.mp hc with rfl | hc'
    · exact ⟨c, hab, le_refl c, hceq⟩
    · rcases List.mem_filter.mp hc' with ⟨-, hcin⟩
      have hcin' : a ≤ c ∧ c ≤ b := by simpa using hcin
      exact ⟨c, hcin'.1, hcin'.2, hceq⟩

/-! Section: State-preservation helpers -/

theorem answerCSR_fields (env : Env) (s : DeciderState) :
    (answerCSR env s).1.currentSignalFirst = s.currentSignalFirst ∧
    (answerCSR env s).1.currentSignalSecond = s.currentSignalSecond ∧
    (answerCSR env s).1.isChannelIdle = s.isChannelIdle ∧
    (answerCSR env s).1.sensitivity = s.sensitivity := by
  unfold answerCSR
  cases hc : s.csrFirst <;> simp

theorem setChannelIdleStatus_fields (env : Env) (s : DeciderState) (b : Bool) :
    (setChannelIdleStatus env s b).1.currentSignalFirst = s.currentSignalFirst ∧
    (setChannelIdleStatus env s b).1.currentSignalSecond = s.currentSignalSecond ∧
    (setChannelIdleStatus env s b).1.isChannelIdle = b ∧
    (setChannelIdleStatus env s b).1.sensitivity = s.sensitivity := by
  obtain ⟨h1, h2, h3, h4⟩ := answerCSR_fields env { s with isChannelIdle := b }
  unfold setChannelIdleStatus
  by_cases h : canAnswerCSR env { s with isChannelIdle := b } = true
  · simp only [h, if_true]
    cases hc : s.csrFirst <;> simp_all
  · simp [h]

theorem setChannelIdleStatus_noSendUp (env : Env) (s : DeciderState) (b : Bool) :
    ((setChannelIdleStatus env s b).2.filter isSendUp) = [] := by
  unfold setChannelIdleStatus answerCSR
  by_cases h : canAnswerCSR env { s with isChannelIdle := b } = true
  · simp only [h, if_true]
    cases hc : s.csrFirst <;> simp [hc, isSendUp]
  · simp [h]

/-! Section: C1 -/

/-- C1: a frame in state `NEW` arriving while no reception is in
progress (`currentSignal.first` empty) whose received power at its own
signal start time is at least the sensitivity threshold is recorded as
the current reception in state `EXPECT_END`; the channel-occupancy flag
turns busy and `processSignal` returns exactly
`signalStart + signalLength`. -/
theorem processSignal_accepts_strong_new_frame (env : Env) (s : DeciderState)
    (frame : AirFrame) (hfree : s.currentSignalFirst = none)
    (hpow : s.sensitivity ≤ frame.recvPower.getValue frame.signalStart) :
    (processSignal env s frame).1 =
      DResult.next (frame.signalStart + frame.signalLength) ∧
    (processSignal env s frame).2.1.currentSignalFirst = some frame ∧
    (processSignal env s frame).2.1.currentSignalSecond = EXPECT_END ∧
    (processSignal env s frame).2.1.isChannelIdle = false := by
  have hst : getSignalState s frame = NEW := by
    unfold getSignalState
    rw [hfree]
  have hps : processSignal env s frame = processNewSignal env s frame := by
    unfold processSignal
    simp [hst]
  rw [hps]
  unfold processNewSignal
  rw [hfree]
  dsimp only
  rw [if_neg (not_lt.mpr hpow)]
  obtain ⟨h1, h2, h3, h4⟩ := setChannelIdleStatus_fields env
    { s with currentSignalFirst := some frame, currentSignalSecond := EXPECT_END }
    false
  refine ⟨rfl, ?_, ?_, h3⟩
  · rw [h1]
  · rw [h2]

/-- Witness for C1 at a concrete input. -/
theorem processSignal_accepts_strong_new_frame_w :
    (⟨none, 0, true, none, 0, 1⟩ : DeciderState).currentSignalFirst = none ∧
    (⟨none, 0, true, none, 0, 1⟩ : DeciderState).sensitivity ≤
      (⟨1, 0, 10, ⟨[(0, 5)]⟩⟩ : AirFrame).recvPower.getValue
        (⟨1, 0, 10, ⟨[(0, 5)]⟩⟩ : AirFrame).signalStart ∧
    ((processSignal ⟨0, fun _ _ => [], fun _ _ => none⟩ ⟨none, 0, true, none, 0, 1⟩
        ⟨1, 0, 10, ⟨[(0, 5)]⟩⟩).1 =
      DResult.next ((⟨1, 0, 10, ⟨[(0, 5)]⟩⟩ : AirFrame).signalStart +
        (⟨1, 0, 10, ⟨[(0, 5)]⟩⟩ : AirFrame).signalLength) ∧
    (processSignal ⟨0, fun _ _ => [], fun _ _ => none⟩ ⟨none, 0, true, none, 0, 1⟩
        ⟨1, 0, 10, ⟨[(0, 5)]⟩⟩).2.1.currentSignalFirst = some ⟨1, 0, 10, ⟨[(0, 5)]⟩⟩ ∧
    (processSignal ⟨0, fun _ _ => [], fun _ _ => none⟩ ⟨none, 0, true, none, 0, 1⟩
        ⟨1, 0, 10, ⟨[(0, 5)]⟩⟩).2.1.currentSignalSecond = EXPECT_END ∧
    (processSignal ⟨0, fun _ _ => [], fun _ _ => none⟩ ⟨none, 0, true, none, 0, 1⟩
        ⟨1, 0, 10, ⟨[(0, 5)]⟩⟩).2.1.isChannelIdle = false) :=
  ⟨rfl, by decide,
   processSignal_accepts_strong_new_frame ⟨0, fun _ _ => [], fun _ _ => none⟩
     ⟨none, 0, true, none, 0, 1⟩ ⟨1, 0, 10, ⟨[(0, 5)]⟩⟩ rfl (by decide)⟩

/-! Section: C2 -/

/-- C2: a frame in state `NEW` arriving while another frame is already
recorded as the current reception is rejected: `processSignal` returns
the `notAgain` sentinel without reading the new frame's power (the
result is the same for every receiving-power mapping) and without
changing the current-reception record, the occupancy flag or the
outstanding sense request (the whole state is unchanged, no PHY calls
are made). -/
theorem processSignal_rejects_second_reception (env : Env) (s : DeciderState)
    (frame g : AirFrame) (hcur : s.currentSignalFirst = some g)
    (hne : frame.id ≠ g.id) :
    processSignal env s frame = (DResult.notAgain, s, []) ∧
    ∀ p, processSignal env s { frame with recvPower := p } =
      (DResult.notAgain, s, []) := by
  constructor
  · have hst : getSignalState s frame = NEW := by
      unfold getSignalState
      rw [hcur]
      simp [hne]
    have hps : processSignal env s frame = processNewSignal env s frame := by
      unfold processSignal
      simp [hst]
    rw [hps]
    unfold processNewSignal
    rw [hcur]
  · intro p
    have hst : getSignalState s { frame with recvPower := p } = NEW := by
      unfold getSignalState
      rw [hcur]
      simp [hne]
    have hps : processSignal env s { frame with recvPower := p } =
        processNewSignal env s { frame with recvPower := p } := by
      unfold processSignal
      simp [hst]
    rw [hps]
    unfold processNewSignal
    rw [hcur]

/-- Witness for C2 at a concrete input. -/
theorem processSignal_rejects_second_reception_w :
    (⟨some ⟨1, 0, 10, ⟨[(0, 5)]⟩⟩, 2, false, none, 0, 1⟩
        : DeciderState).currentSignalFirst = some ⟨1, 0, 10, ⟨[(0, 5)]⟩⟩ ∧
    (⟨3, 0, 10, ⟨[(0, 7)]⟩⟩ : AirFrame).id ≠ (⟨1, 0, 10, ⟨[(0, 5)]⟩⟩ : AirFrame).id ∧
    (processSignal ⟨0, fun _ _ => [], fun _ _ => none⟩
        ⟨some ⟨1, 0, 10, ⟨[(0, 5)]⟩⟩, 2, false, none, 0, 1⟩ ⟨3, 0, 10, ⟨[(0, 7)]⟩⟩ =
      (DResult.notAgain, ⟨some ⟨1, 0, 10, ⟨[(0, 5)]⟩⟩, 2, false, none, 0, 1⟩, []) ∧
    ∀ p, processSignal ⟨0, fun _ _ => [], fun _ _ => none⟩
        ⟨some ⟨1, 0, 10, ⟨[(0, 5)]⟩⟩, 2, false, none, 0, 1⟩
        { (⟨3, 0, 10, ⟨[(0, 7)]⟩⟩ : AirFrame) with recvPower := p } =
      (DResult.notAgain, ⟨some ⟨1, 0, 10, ⟨[(0, 5)]⟩⟩, 2, false, none, 0, 1⟩, [])) :=
  ⟨rfl, by decide,
   processSignal_rejects_second_reception ⟨0, fun _ _ => [], fun _ _ => none⟩
     ⟨some ⟨1, 0, 10, ⟨[(0, 5)]⟩⟩, 2, false, none, 0, 1⟩ ⟨3, 0, 10, ⟨[(0, 7)]⟩⟩
     ⟨1, 0, 10, ⟨[(0, 5)]⟩⟩ rfl (by decide)⟩

/-! Section: C9 -/

/-- C9: a frame in state `NEW` arriving while no reception is in
progress whose received power at its own start time is strictly below
the sensitivity threshold is rejected: `processSignal` returns the
`notAgain` sentinel and has no side effect — the occupancy flag, the
current-reception record and the outstanding sense request all keep
their previous values (the whole state is unchanged, no PHY calls are
made). -/
theorem processSignal_rejects_weak_signal (env : Env) (s : DeciderState)
    (frame : AirFrame) (hfree : s.currentSignalFirst = none)
    (hpow : frame.recvPower.getValue frame.signalStart < s.sensitivity) :
    processSignal env s frame = (DResult.notAgain, s, []) := by
  have hst : getSignalState s frame = NEW := by
    unfold getSignalState
    rw [hfree]
  have hps : processSignal env s frame = processNewSignal env s frame := by
    unfold processSignal
    simp [hst]
  rw [hps]
  unfold processNewSignal
  rw [hfree]
  dsimp only
  rw [if_pos hpow]

/-- Witness for C9 at a concrete input. -/
theorem processSignal_rejects_weak_signal_w :
    (⟨none, 0, true, none, 0, 1⟩ : DeciderState).currentSignalFirst = none ∧
    (⟨3, 0, 10, ⟨[(0, 0)]⟩⟩ : AirFrame).recvPower.getValue
        (⟨3, 0, 10, ⟨[(0, 0)]⟩⟩ : AirFrame).signalStart <
      (⟨none, 0, true, none, 0, 1⟩ : DeciderState).sensitivity ∧
    processSignal ⟨0, fun _ _ => [], fun _ _ => none⟩ ⟨none, 0, true, none, 0, 1⟩
        ⟨3, 0, 10, ⟨[(0, 0)]⟩⟩ =
      (DResult.notAgain, ⟨none, 0, true, none, 0, 1⟩, []) :=
  ⟨rfl, by decide,
   processSignal_rejects_weak_signal ⟨0, fun _ _ => [], fun _ _ => none⟩
     ⟨none, 0, true, none, 0, 1⟩ ⟨3, 0, 10, ⟨[(0, 0)]⟩⟩ rfl (by decide)⟩

/-! Section: C3 -/

/-- C3: re-invoking `processSignal` for the frame currently recorded as
the active reception (state `EXPECT_END`) hands the frame up exactly
once with a positive `DeciderResult` (the calls contain exactly one
`sendUp`, for this frame with result `true`), clears the
current-reception record, turns the occupancy flag idle and returns the
`notAgain` sentinel. -/
theorem processSignal_end_delivers_once (env : Env) (s : DeciderState)
    (frame g : AirFrame) (hcur : s.currentSignalFirst = some g)
    (hid : frame.id = g.id) (hstate : s.currentSignalSecond = EXPECT_END) :
    (processSignal env s frame).1 = DResult.notAgain ∧
    (processSignal env s frame).2.1.currentSignalFirst = none ∧
    (processSignal env s frame).2.1.isChannelIdle = true ∧
    (processSignal env s frame).2.2.filter isSendUp =
      [PhyCall.sendUp frame true] := by
  have hst : getSignalState s frame = EXPECT_END := by
    unfold getSignalState
    rw [hcur]
    simp [hid, hstate]
  have hps : processSignal env s frame = processSignalEnd env s frame := by
    unfold processSignal
    simp only [hst]
    norm_num [NEW, EXPECT_HEADER, EXPECT_END]
  rw [hps]
  unfold processSignalEnd
  obtain ⟨h1, h2, h3, h4⟩ := setChannelIdleStatus_fields env
    { s with currentSignalFirst := none } true
  have h5 := setChannelIdleStatus_noSendUp env { s with currentSignalFirst := none }
    true
  refine ⟨rfl, ?_, h3, ?_⟩
  · rw [h1]
  · rw [List.filter_cons]
    simp [isSendUp, h5]

/-- Witness for C3 at a concrete input. -/
theorem processSignal_end_delivers_once_w :
    (⟨some ⟨1, 0, 10, ⟨[(0, 5)]⟩⟩, 2, false, none, 0, 1⟩
        : DeciderState).currentSignalFirst = some ⟨1, 0, 10, ⟨[(0, 5)]⟩⟩ ∧
    (⟨1, 0, 10, ⟨[(0, 5)]⟩⟩ : AirFrame).id = (⟨1, 0, 10, ⟨[(0, 5)]⟩⟩ : AirFrame).id ∧
    (⟨some ⟨1, 0, 10, ⟨[(0, 5)]⟩⟩, 2, false, none, 0, 1⟩
        : DeciderState).currentSignalSecond = EXPECT_END ∧
    ((processSignal ⟨10, fun _ _ => [], fun _ _ => none⟩
        ⟨some ⟨1, 0, 10, ⟨[(0, 5)]⟩⟩, 2, false, none, 0, 1⟩
        ⟨1, 0, 10, ⟨[(0, 5)]⟩⟩).1 = DResult.notAgain ∧
    (processSignal ⟨10, fun _ _ => [], fun _ _ => none⟩
        ⟨some ⟨1, 0, 10, ⟨[(0, 5)]⟩⟩, 2, false, none, 0, 1⟩
        ⟨1, 0, 10, ⟨[(0, 5)]⟩⟩).2.1.currentSignalFirst = none ∧
    (processSignal ⟨10, fun _ _ => [], fun _ _ => none⟩
        ⟨some ⟨1, 0, 10, ⟨[(0, 5)]⟩⟩, 2, false, none, 0, 1⟩
        ⟨1, 0, 10, ⟨[(0, 5)]⟩⟩).2.1.isChannelIdle = true ∧
    (processSignal ⟨10, fun _ _ => [], fun _ _ => none⟩
        ⟨some ⟨1, 0, 10, ⟨[(0, 5)]⟩⟩, 2, false, none, 0, 1⟩
        ⟨1, 0, 10, ⟨[(0, 5)]⟩⟩).2.2.filter isSendUp =
      [PhyCall.sendUp ⟨1, 0, 10, ⟨[(0, 5)]⟩⟩ true]) :=
  ⟨rfl, rfl, by decide,
   processSignal_end_delivers_once ⟨10, fun _ _ => [], fun _ _ => none⟩
     ⟨some ⟨1, 0, 10, ⟨[(0, 5)]⟩⟩, 2, false, none, 0, 1⟩ ⟨1, 0, 10, ⟨[(0, 5)]⟩⟩
     ⟨1, 0, 10, ⟨[(0, 5)]⟩⟩ rfl rfl (by decide)⟩

/-! Section: C5 -/

/-- C5: while a sense request is outstanding, `handleChannelSenseRequest`
with a different request aborts with a fatal error (`opp_error`) and
delivers no answer; with the same outstanding request (its timeout
firing) the request is answered unconditionally — no `canAnswerCSR`
re-test guards the answer — and the `notAgain` sentinel is returned. -/
theorem handleChannelSenseRequest_protocol (env : Env) (s : DeciderState)
    (request cur : ChannelSenseRequest) (hcur : s.csrFirst = some cur) :
    (cur.id ≠ request.id →
      handleChannelSenseRequest env s request = (DResult.fatal, s, [])) ∧
    (cur.id = request.id →
      handleChannelSenseRequest env s request =
        (DResult.notAgain, { s with csrFirst := none },
         [PhyCall.sendControlMsg cur
           ⟨s.isChannelIdle,
            if calcChannelSenseRSSI env s.csrSecond env.now < 0 then 0
            else calcChannelSenseRSSI env s.csrSecond env.now⟩])) := by
  constructor
  · intro hne
    unfold handleChannelSenseRequest
    rw [hcur]
    dsimp only
    rw [if_pos hne]
  · intro heq
    unfold handleChannelSenseRequest handleSenseRequestTimeout answerCSR
    rw [hcur]
    dsimp only
    rw [if_neg (not_not_intro heq)]

/-- Witness for C5 at a concrete input. -/
theorem handleChannelSenseRequest_protocol_w :
    (⟨none, 0, true, some ⟨7, SenseMode.UNTIL_BUSY, 4⟩, 0, 1⟩
        : DeciderState).csrFirst = some ⟨7, SenseMode.UNTIL_BUSY, 4⟩ ∧
    (((⟨7, SenseMode.UNTIL_BUSY, 4⟩ : ChannelSenseRequest).id ≠
        (⟨9, SenseMode.UNTIL_BUSY, 4⟩ : ChannelSenseRequest).id →
      handleChannelSenseRequest ⟨4, fun _ _ => [], fun _ _ => none⟩
          ⟨none, 0, true, some ⟨7, SenseMode.UNTIL_BUSY, 4⟩, 0, 1⟩
          ⟨9, SenseMode.UNTIL_BUSY, 4⟩ =
        (DResult.fatal, ⟨none, 0, true, some ⟨7, SenseMode.UNTIL_BUSY, 4⟩, 0, 1⟩,
          [])) ∧
    ((⟨7, SenseMode.UNTIL_BUSY, 4⟩ : ChannelSenseRequest).id =
        (⟨9, SenseMode.UNTIL_BUSY, 4⟩ : ChannelSenseRequest).id →
      handleChannelSenseRequest ⟨4, fun _ _ => [], fun _ _ => none⟩
          ⟨none, 0, true, some ⟨7, SenseMode.UNTIL_BUSY, 4⟩, 0, 1⟩
          ⟨9, SenseMode.UNTIL_BUSY, 4⟩ =
        (DResult.notAgain,
         { (⟨none, 0, true, some ⟨7, SenseMode.UNTIL_BUSY, 4⟩, 0, 1⟩
             : DeciderState) with csrFirst := none },
         [PhyCall.sendControlMsg ⟨7, SenseMode.UNTIL_BUSY, 4⟩
           ⟨(⟨none, 0, true, some ⟨7, SenseMode.UNTIL_BUSY, 4⟩, 0, 1⟩
               : DeciderState).isChannelIdle,
            if calcChannelSenseRSSI ⟨4, fun _ _ => [], fun _ _ => none⟩
                 (⟨none, 0, true, some ⟨7, SenseMode.UNTIL_BUSY, 4⟩, 0, 1⟩
                   : DeciderState).csrSecond
                 (⟨4, fun _ _ => [], fun _ _ => none⟩ : Env).now < 0 then 0
            else calcChannelSenseRSSI ⟨4, fun _ _ => [], fun _ _ => none⟩
                 (⟨none, 0, true, some ⟨7, SenseMode.UNTIL_BUSY, 4⟩, 0, 1⟩
                   : DeciderState).csrSecond
                 (⟨4, fun _ _ => [], fun _ _ => none⟩ : Env).now⟩]))) :=
  ⟨rfl, handleChannelSenseRequest_protocol ⟨4, fun _ _ => [], fun _ _ => none⟩
     ⟨none, 0, true, some ⟨7, SenseMode.UNTIL_BUSY, 4⟩, 0, 1⟩
     ⟨9, SenseMode.UNTIL_BUSY, 4⟩ ⟨7, SenseMode.UNTIL_BUSY, 4⟩ rfl⟩

/-! Section: C6 -/

/-- C6: every occupancy flip through `setChannelIdleStatus` re-evaluates
the outstanding sense request; when it has become answerable, the
scheduled timeout message is cancelled with the scheduler strictly
before the single `sendControlMsg` answer, the request record is
cleared, and in the resulting state `canAnswerCSR` is false at every
time — so the request cannot be answered a second time.  When it is not
answerable, only the flag changes and no call is made. -/
theorem setChannelIdleStatus_answers_once (env : Env) (s : DeciderState)
    (req : ChannelSenseRequest) (b : Bool) (hcsr : s.csrFirst = some req) :
    (canAnswerCSR env { s with isChannelIdle := b } = true →
      setChannelIdleStatus env s b =
        ({ s with isChannelIdle := b, csrFirst := none },
         [PhyCall.cancelScheduledMessage req,
          PhyCall.sendControlMsg req
            ⟨b, if calcChannelSenseRSSI env s.csrSecond env.now < 0 then 0
                else calcChannelSenseRSSI env s.csrSecond env.now⟩]) ∧
      (∀ env2, canAnswerCSR env2 (setChannelIdleStatus env s b).1 = false)) ∧
    (canAnswerCSR env { s with isChannelIdle := b } = false →
      setChannelIdleStatus env s b = ({ s with isChannelIdle := b }, [])) := by
  constructor
  · intro h
    have heq : setChannelIdleStatus env s b =
        ({ s with isChannelIdle := b, csrFirst := none },
         [PhyCall.cancelScheduledMessage req,
          PhyCall.sendControlMsg req
            ⟨b, if calcChannelSenseRSSI env s.csrSecond env.now < 0 then 0
                else calcChannelSenseRSSI env s.csrSecond env.now⟩]) := by
      rw [hcsr] at h
      unfold setChannelIdleStatus answerCSR
      rw [hcsr]
      simp only [h, if_true]
    refine ⟨heq, ?_⟩
    intro env2
    rw [heq]
    unfold canAnswerCSR
    rfl
  · intro h
    unfold setChannelIdleStatus
    simp only [h]
    rfl

/-- Witness for C6 at a concrete input. -/
theorem setChannelIdleStatus_answers_once_w :
    (⟨none, 0, true, some ⟨7, SenseMode.UNTIL_BUSY, 4⟩, 0, 1⟩
        : DeciderState).csrFirst = some ⟨7, SenseMode.UNTIL_BUSY, 4⟩ ∧
    ((canAnswerCSR ⟨1, fun _ _ => [], fun _ _ => none⟩
        { (⟨none, 0, true, some ⟨7, SenseMode.UNTIL_BUSY, 4⟩, 0, 1⟩
            : DeciderState) with isChannelIdle := false } = true →
      setChannelIdleStatus ⟨1, fun _ _ => [], fun _ _ => none⟩
          ⟨none, 0, true, some ⟨7, SenseMode.UNTIL_BUSY, 4⟩, 0, 1⟩ false =
        ({ (⟨none, 0, true, some ⟨7, SenseMode.UNTIL_BUSY, 4⟩, 0, 1⟩
             : DeciderState) with isChannelIdle := false, csrFirst := none },
         [PhyCall.cancelScheduledMessage ⟨7, SenseMode.UNTIL_BUSY, 4⟩,
          PhyCall.sendControlMsg ⟨7, SenseMode.UNTIL_BUSY, 4⟩
            ⟨false,
             if calcChannelSenseRSSI ⟨1, fun _ _ => [], fun _ _ => none⟩
                  (⟨none, 0, true, some ⟨7, SenseMode.UNTIL_BUSY, 4⟩, 0, 1⟩
                    : DeciderState).csrSecond
                  (⟨1, fun _ _ => [], fun _ _ => none⟩ : Env).now < 0 then 0
             else calcChannelSenseRSSI ⟨1, fun _ _ => [], fun _ _ => none⟩
                  (⟨none, 0, true, some ⟨7, SenseMode.UNTIL_BUSY, 4⟩, 0, 1⟩
                    : DeciderState).csrSecond
                  (⟨1, fun _ _ => [], fun _ _ => none⟩ : Env).now⟩]) ∧
      (∀ env2, canAnswerCSR env2 (setChannelIdleStatus
          ⟨1, fun _ _ => [], fun _ _ => none⟩
          ⟨none, 0, true, some ⟨7, SenseMode.UNTIL_BUSY, 4⟩, 0, 1⟩ false).1 =
        false)) ∧
    (canAnswerCSR ⟨1, fun _ _ => [], fun _ _ => none⟩
        { (⟨none, 0, true, some ⟨7, SenseMode.UNTIL_BUSY, 4⟩, 0, 1⟩
            : DeciderState) with isChannelIdle := false } = false →
      setChannelIdleStatus ⟨1, fun _ _ => [], fun _ _ => none⟩
          ⟨none, 0, true, some ⟨7, SenseMode.UNTIL_BUSY, 4⟩, 0, 1⟩ false =
        ({ (⟨none, 0, true, some ⟨7, SenseMode.UNTIL_BUSY, 4⟩, 0, 1⟩
             : DeciderState) with isChannelIdle := false }, []))) :=
  ⟨rfl, setChannelIdleStatus_answers_once ⟨1, fun _ _ => [], fun _ _ => none⟩
     ⟨none, 0, true, some ⟨7, SenseMode.UNTIL_BUSY, 4⟩, 0, 1⟩
     ⟨7, SenseMode.UNTIL_BUSY, 4⟩ false rfl⟩

/-! Section: C7 (corrected) -/

/-- C7 counterexample: `canAnswerCSR` is not monotonic over simulated
time.  With an `UNTIL_BUSY` request outstanding on an idle channel it is
true at the timeout instant `now = 4 = arrival + timeout` but false
again at the later instant `now = 5`, the request still being outstanding
(unanswered) and the state unchanged in between. -/
theorem canAnswerCSR_not_monotonic_cex :
    canAnswerCSR ⟨4, fun _ _ => [], fun _ _ => none⟩
      ⟨none, 0, true, some ⟨7, SenseMode.UNTIL_BUSY, 4⟩, 0, 1⟩ = true ∧
    canAnswerCSR ⟨5, fun _ _ => [], fun _ _ => none⟩
      ⟨none, 0, true, some ⟨7, SenseMode.UNTIL_BUSY, 4⟩, 0, 1⟩ = false ∧
    (4 : ℚ) < 5 ∧
    (⟨none, 0, true, some ⟨7, SenseMode.UNTIL_BUSY, 4⟩, 0, 1⟩
        : DeciderState).csrFirst ≠ none :=
  ⟨by norm_num [canAnswerCSR, modeFulfilled],
   by norm_num [canAnswerCSR, modeFulfilled], by norm_num, by decide⟩

/-- C7 (amended): the mode disjunct of `canAnswerCSR` is monotonic — once
the requested occupancy condition holds, `canAnswerCSR` is true at every
simulated time for the unchanged state; but the timeout disjunct is an
equality test, so `canAnswerCSR` is true at most at the single instant
`now = arrival + timeout` when the mode condition is not fulfilled, and
false again afterwards even though the request is still outstanding. -/
theorem canAnswerCSR_mode_vs_timeout (env : Env) (s : DeciderState)
    (req : ChannelSenseRequest) (hcsr : s.csrFirst = some req) :
    (modeFulfilled s req = true →
      ∀ t, canAnswerCSR ⟨t, env.channelInfo, env.thermalNoise⟩ s = true) ∧
    (canAnswerCSR env s = true →
      modeFulfilled s req = true ∨ env.now = s.csrSecond + req.senseTimeout) ∧
    (modeFulfilled s req = false → env.now ≠ s.csrSecond + req.senseTimeout →
      canAnswerCSR env s = false) := by
  unfold canAnswerCSR
  rw [hcsr]
  refine ⟨fun h t => by simp [h], fun h => ?_, fun h1 h2 => by simp [h1, h2]⟩
  rcases Bool.or_eq_true_iff.mp h with h' | h'
  · exact Or.inl h'
  · exact Or.inr (of_decide_eq_true h')

/-- Witness for the amended C7 at a concrete input. -/
theorem canAnswerCSR_mode_vs_timeout_w :
    (⟨none, 0, false, some ⟨7, SenseMode.UNTIL_BUSY, 4⟩, 0, 1⟩
        : DeciderState).csrFirst = some ⟨7, SenseMode.UNTIL_BUSY, 4⟩ ∧
    ((modeFulfilled ⟨none, 0, false, some ⟨7, SenseMode.UNTIL_BUSY, 4⟩, 0, 1⟩
        ⟨7, SenseMode.UNTIL_BUSY, 4⟩ = true →
      ∀ t, canAnswerCSR ⟨t, (⟨2, fun _ _ => [], fun _ _ => none⟩ : Env).channelInfo,
          (⟨2, fun _ _ => [], fun _ _ => none⟩ : Env).thermalNoise⟩
        ⟨none, 0, false, some ⟨7, SenseMode.UNTIL_BUSY, 4⟩, 0, 1⟩ = true) ∧
    (canAnswerCSR ⟨2, fun _ _ => [], fun _ _ => none⟩
        ⟨none, 0, false, some ⟨7, SenseMode.UNTIL_BUSY, 4⟩, 0, 1⟩ = true →
      modeFulfilled ⟨none, 0, false, some ⟨7, SenseMode.UNTIL_BUSY, 4⟩, 0, 1⟩
          ⟨7, SenseMode.UNTIL_BUSY, 4⟩ = true ∨
        (⟨2, fun _ _ => [], fun _ _ => none⟩ : Env).now =
          (⟨none, 0, false, some ⟨7, SenseMode.UNTIL_BUSY, 4⟩, 0, 1⟩
            : DeciderState).csrSecond +
          (⟨7, SenseMode.UNTIL_BUSY, 4⟩ : ChannelSenseRequest).senseTimeout) ∧
    (modeFulfilled ⟨none, 0, false, some ⟨7, SenseMode.UNTIL_BUSY, 4⟩, 0, 1⟩
        ⟨7, SenseMode.UNTIL_BUSY, 4⟩ = false →
      (⟨2, fun _ _ => [], fun _ _ => none⟩ : Env).now ≠
        (⟨none, 0, false, some ⟨7, SenseMode.UNTIL_BUSY, 4⟩, 0, 1⟩
          : DeciderState).csrSecond +
        (⟨7, SenseMode.UNTIL_BUSY, 4⟩ : ChannelSenseRequest).senseTimeout →
      canAnswerCSR ⟨2, fun _ _ => [], fun _ _ => none⟩
        ⟨none, 0, false, some ⟨7, SenseMode.UNTIL_BUSY, 4⟩, 0, 1⟩ = false)) :=
  ⟨rfl, canAnswerCSR_mode_vs_timeout ⟨2, fun _ _ => [], fun _ _ => none⟩
     ⟨none, 0, false, some ⟨7, SenseMode.UNTIL_BUSY, 4⟩, 0, 1⟩
     ⟨7, SenseMode.UNTIL_BUSY, 4⟩ rfl⟩

/-! Section: C10 -/

theorem handleChannelSenseRequest_signal_fields (env : Env) (s : DeciderState)
    (request : ChannelSenseRequest) :
    (handleChannelSenseRequest env s request).2.1.currentSignalFirst =
      s.currentSignalFirst ∧
    (handleChannelSenseRequest env s request).2.1.currentSignalSecond =
      s.currentSignalSecond := by
  unfold handleChannelSenseRequest handleNewSenseRequest handleSenseRequestTimeout
  cases hc : s.csrFirst with
  | none =>
    dsimp only
    by_cases h : canAnswerCSR env
        { s with csrFirst := some request, csrSecond := env.now } = true
    · obtain ⟨h1, h2, -, -⟩ := answerCSR_fields env
        { s with csrFirst := some request, csrSecond := env.now }
      simp_all
    · simp [h]
  | some cur =>
    dsimp only
    obtain ⟨h1, h2, -, -⟩ := answerCSR_fields env s
    by_cases h : cur.id ≠ request.id
    · simp [h]
    · simp_all

theorem processNewSignal_inv (env : Env) (s : DeciderState) (frame : AirFrame)
    (hInv : Inv s) : Inv (processNewSignal env s frame).2.1 := by
  unfold processNewSignal
  cases hc : s.currentSignalFirst with
  | none =>
    dsimp only
    by_cases hp : frame.recvPower.getValue frame.signalStart < s.sensitivity
    · rw [if_pos hp]
      intro h
      exact absurd hc h
    · rw [if_neg hp]
      obtain ⟨h1, h2, -, -⟩ := setChannelIdleStatus_fields env
        { s with currentSignalFirst := some frame,
                 currentSignalSecond := EXPECT_END } false
      intro h
      rw [h2]
  | some cur =>
    dsimp only
    exact hInv

theorem processSignalEnd_inv (env : Env) (s : DeciderState) (frame : AirFrame) :
    Inv (processSignalEnd env s frame).2.1 := by
  unfold processSignalEnd
  obtain ⟨h1, -, -, -⟩ := setChannelIdleStatus_fields env
    { s with currentSignalFirst := none } true
  intro h
  dsimp only at h1 h
  exact absurd h1 h

theorem getSignalState_cases (s : DeciderState) (frame : AirFrame)
    (hInv : Inv s) :
    getSignalState s frame = NEW ∨ getSignalState s frame = EXPECT_END := by
  unfold getSignalState
  cases hc : s.currentSignalFirst with
  | none => exact Or.inl rfl
  | some cur =>
    dsimp only
    by_cases hid : frame.id = cur.id
    · right
      rw [if_pos hid]
      have hne : s.currentSignalFirst ≠ none := by rw [hc]; simp
      exact hInv hne
    · left
      rw [if_neg hid]

theorem processSignal_dispatch (env : Env) (s : DeciderState) (frame : AirFrame)
    (hInv : Inv s) :
    processSignal env s frame = processNewSignal env s frame ∨
    processSignal env s frame = processSignalEnd env s frame := by
  rcases getSignalState_cases s frame hInv with h | h
  · left
    unfold processSignal
    simp [h]
  · right
    unfold processSignal
    simp only [h]
    norm_num [NEW, EXPECT_HEADER, EXPECT_END]

/-- C10: every operation preserves the invariant "a non-null
current-reception record is in state `EXPECT_END`"; consequently
`getSignalState` only ever returns `NEW` or `EXPECT_END`, and
`processSignal` always takes the `processNewSignal` or
`processSignalEnd` branch — the `EXPECT_HEADER` and default
(`processUnknownSignal`) branches are unreachable. -/
theorem decider_invariant (env : Env) (s : DeciderState) (frame : AirFrame)
    (request : ChannelSenseRequest) (b : Bool) (hInv : Inv s) :
    Inv (processSignal env s frame).2.1 ∧
    Inv (handleChannelSenseRequest env s request).2.1 ∧
    Inv (setChannelIdleStatus env s b).1 ∧
    Inv (answerCSR env s).1 ∧
    (getSignalState s frame = NEW ∨ getSignalState s frame = EXPECT_END) ∧
    (processSignal env s frame = processNewSignal env s frame ∨
     processSignal env s frame = processSignalEnd env s frame) := by
  refine ⟨?_, ?_, ?_, ?_, getSignalState_cases s frame hInv,
    processSignal_dispatch env s frame hInv⟩
  · rcases processSignal_dispatch env s frame hInv with h | h <;> rw [h]
    · exact processNewSignal_inv env s frame hInv
    · exact processSignalEnd_inv env s frame
  · obtain ⟨h1, h2⟩ := handleChannelSenseRequest_signal_fields env s request
    intro h
    rw [h2]
    exact hInv fun hn => h (by rw [h1, hn])
  · obtain ⟨h1, h2, -, -⟩ := setChannelIdleStatus_fields env s b
    intro h
    rw [h2]
    exact hInv fun hn => h (by rw [h1, hn])
  · obtain ⟨h1, h2, -, -⟩ := answerCSR_fields env s
    intro h
    rw [h2]
    exact hInv fun hn => h (by rw [h1, hn])

/-- Witness for C10 at a concrete input. -/
theorem decider_invariant_w :
    Inv ⟨none, 0, true, none, 0, 1⟩ ∧
    (Inv (processSignal ⟨0, fun _ _ => [], fun _ _ => none⟩
        ⟨none, 0, true, none, 0, 1⟩ ⟨1, 0, 10, ⟨[(0, 5)]⟩⟩).2.1 ∧
    Inv (handleChannelSenseRequest ⟨0, fun _ _ => [], fun _ _ => none⟩
        ⟨none, 0, true, none, 0, 1⟩ ⟨7, SenseMode.UNTIL_BUSY, 4⟩).2.1 ∧
    Inv (setChannelIdleStatus ⟨0, fun _ _ => [], fun _ _ => none⟩
        ⟨none, 0, true, none, 0, 1⟩ false).1 ∧
    Inv (answerCSR ⟨0, fun _ _ => [], fun _ _ => none⟩
        ⟨none, 0, true, none, 0, 1⟩).1 ∧
    (getSignalState ⟨none, 0, true, none, 0, 1⟩ ⟨1, 0, 10, ⟨[(0, 5)]⟩⟩ = NEW ∨
     getSignalState ⟨none, 0, true, none, 0, 1⟩ ⟨1, 0, 10, ⟨[(0, 5)]⟩⟩ =
       EXPECT_END) ∧
    (processSignal ⟨0, fun _ _ => [], fun _ _ => none⟩ ⟨none, 0, true, none, 0, 1⟩
        ⟨1, 0, 10, ⟨[(0, 5)]⟩⟩ =
      processNewSignal ⟨0, fun _ _ => [], fun _ _ => none⟩
        ⟨none, 0, true, none, 0, 1⟩ ⟨1, 0, 10, ⟨[(0, 5)]⟩⟩ ∨
     processSignal ⟨0, fun _ _ => [], fun _ _ => none⟩ ⟨none, 0, true, none, 0, 1⟩
        ⟨1, 0, 10, ⟨[(0, 5)]⟩⟩ =
      processSignalEnd ⟨0, fun _ _ => [], fun _ _ => none⟩
        ⟨none, 0, true, none, 0, 1⟩ ⟨1, 0, 10, ⟨[(0, 5)]⟩⟩)) :=
  ⟨fun h => absurd rfl h,
   decider_invariant ⟨0, fun _ _ => [], fun _ _ => none⟩ ⟨none, 0, true, none, 0, 1⟩
     ⟨1, 0, 10, ⟨[(0, 5)]⟩⟩ ⟨7, SenseMode.UNTIL_BUSY, 4⟩ false
     (fun h => absurd rfl h)⟩

/-! Section: C8 (corrected) -/

/-- C8 counterexample: over a window with zero overlapping transmissions
and no thermal-noise source, the instantaneous query made by
`getChannelState` delivers the internal `-DBL_MAX` empty-aggregate
sentinel to its caller, not `0` — `calcChannelSenseRSSI` does not
normalize it and `getChannelState` performs no clamp. -/
theorem getChannelState_sentinel_cex :
    (getChannelState ⟨0, fun _ _ => [], fun _ _ => none⟩
        ⟨none, 0, true, none, 0, 1⟩).rssi = -dblMax ∧
    (getChannelState ⟨0, fun _ _ => [], fun _ _ => none⟩
        ⟨none, 0, true, none, 0, 1⟩).rssi ≠ 0 := by
  have h : (getChannelState ⟨0, fun _ _ => [], fun _ _ => none⟩
      ⟨none, 0, true, none, 0, 1⟩).rssi = -dblMax := rfl
  refine ⟨h, ?_⟩
  rw [h]
  intro hzero
  exact ne_of_gt dblMax_pos (neg_eq_zero.mp hzero)

/-- C8 (amended): with no transmission overlapping the window and no
thermal-noise source, the interval-maximum query `calcChannelSenseRSSI`
yields the internal `-DBL_MAX` empty-aggregate sentinel.  The sentinel is
normalized to `0` before it reaches the requester of a channel-sense
request (`answerCSR` clamps negative values), but the instantaneous
query made by `getChannelState` passes the negative sentinel through
unnormalized. -/
theorem emptyWindow_sentinel (env : Env) (s : DeciderState)
    (req : ChannelSenseRequest) (a b : ℚ) (hcsr : s.csrFirst = some req)
    (hframes : ∀ x y, env.channelInfo x y = [])
    (hnoise : ∀ x y, env.thermalNoise x y = none) :
    calcChannelSenseRSSI env a b = -dblMax ∧
    (getChannelState env s).rssi = -dblMax ∧
    -dblMax < 0 ∧
    (answerCSR env s).2 =
      [PhyCall.sendControlMsg req ⟨s.isChannelIdle, 0⟩] := by
  have hmap : ∀ x y : ℚ, calculateRSSIMapping env x y none = Mapping.empty := by
    intro x y
    unfold calculateRSSIMapping
    rw [hframes x y, hnoise x y]
    rfl
  have hrssi : ∀ x y : ℚ, calcChannelSenseRSSI env x y = -dblMax := by
    intro x y
    unfold calcChannelSenseRSSI
    rw [hmap x y]
    exact findMax_empty rfl x y
  have hneg : -dblMax < 0 := neg_lt_zero.mpr dblMax_pos
  refine ⟨hrssi a b, ?_, hneg, ?_⟩
  · exact hrssi env.now env.now
  · unfold answerCSR
    rw [hcsr]
    dsimp only
    rw [hrssi s.csrSecond env.now, if_pos hneg]

/-- Witness for the amended C8 at a concrete input. -/
theorem emptyWindow_sentinel_w :
    (⟨none, 0, true, some ⟨7, SenseMode.UNTIL_BUSY, 4⟩, 0, 1⟩
        : DeciderState).csrFirst = some ⟨7, SenseMode.UNTIL_BUSY, 4⟩ ∧
    (∀ x y : ℚ, (⟨2, fun _ _ => [], fun _ _ => none⟩ : Env).channelInfo x y = []) ∧
    (∀ x y : ℚ, (⟨2, fun _ _ => [], fun _ _ => none⟩ : Env).thermalNoise x y =
      none) ∧
    (calcChannelSenseRSSI ⟨2, fun _ _ => [], fun _ _ => none⟩ 0 2 = -dblMax ∧
    (getChannelState ⟨2, fun _ _ => [], fun _ _ => none⟩
        ⟨none, 0, true, some ⟨7, SenseMode.UNTIL_BUSY, 4⟩, 0, 1⟩).rssi = -dblMax ∧
    -dblMax < 0 ∧
    (answerCSR ⟨2, fun _ _ => [], fun _ _ => none⟩
        ⟨none, 0, true, some ⟨7, SenseMode.UNTIL_BUSY, 4⟩, 0, 1⟩).2 =
      [PhyCall.sendControlMsg ⟨7, SenseMode.UNTIL_BUSY, 4⟩
        ⟨(⟨none, 0, true, some ⟨7, SenseMode.UNTIL_BUSY, 4⟩, 0, 1⟩
            : DeciderState).isChannelIdle, 0⟩]) :=
  ⟨rfl, fun _ _ => rfl, fun _ _ => rfl,
   emptyWindow_sentinel ⟨2, fun _ _ => [], fun _ _ => none⟩
     ⟨none, 0, true, some ⟨7, SenseMode.UNTIL_BUSY, 4⟩, 0, 1⟩
     ⟨7, SenseMode.UNTIL_BUSY, 4⟩ 0 2 rfl (fun _ _ => rfl) (fun _ _ => rfl)⟩

/-! Section: C4 (corrected) -/

/-- C4 counterexample: a transmission whose received power steps to `5`
exactly at the answering instant `now = 1`, with request arrival time
`0`.  The spec's clamped maximum over the half-open interval `[0, 1)` is
`0`, yet `answerCSR` delivers intensity `5`: the code takes the maximum
over the CLOSED interval `[arrival, now]`, borders included. -/
theorem answerCSR_halfopen_cex :
    (answerCSR ⟨1, fun _ _ => [⟨4, 1, 3, ⟨[(1, 5)]⟩⟩], fun _ _ => none⟩
        ⟨none, 0, true, some ⟨8, SenseMode.UNTIL_BUSY, 4⟩, 0, 1⟩).2 =
      [PhyCall.sendControlMsg ⟨8, SenseMode.UNTIL_BUSY, 4⟩ ⟨true, 5⟩] ∧
    specHalfOpenClampedMax
      (calculateRSSIMapping ⟨1, fun _ _ => [⟨4, 1, 3, ⟨[(1, 5)]⟩⟩],
        fun _ _ => none⟩ 0 1 none) 0 1 0 ∧
    ¬ specHalfOpenClampedMax
      (calculateRSSIMapping ⟨1, fun _ _ => [⟨4, 1, 3, ⟨[(1, 5)]⟩⟩],
        fun _ _ => none⟩ 0 1 none) 0 1 5 := by
  have hm : calculateRSSIMapping ⟨1, fun _ _ => [⟨4, 1, 3, ⟨[(1, 5)]⟩⟩],
      fun _ _ => none⟩ 0 1 none = ⟨[(1, 5)]⟩ := by
    norm_num [calculateRSSIMapping, Mapping.add, Mapping.empty, Mapping.getValue,
      bestEntry]
  have hgv : ∀ t : ℚ, t < 1 → (⟨[(1, 5)]⟩ : Mapping).getValue t = 0 := by
    intro t ht
    unfold Mapping.getValue bestEntry
    dsimp only
    rw [if_neg (not_le.mpr ht)]
    rfl
  have hrssi : calcChannelSenseRSSI ⟨1, fun _ _ => [⟨4, 1, 3, ⟨[(1, 5)]⟩⟩],
      fun _ _ => none⟩ 0 1 = 5 := by
    unfold calcChannelSenseRSSI
    rw [hm]
    norm_num [Mapping.findMax, Mapping.getValue, bestEntry]
  refine ⟨?_, ?_, ?_⟩
  · unfold answerCSR
    dsimp only
    rw [hrssi]
    norm_num
  · rw [hm]
    refine ⟨le_refl 0, ?_, Or.inl rfl⟩
    intro t ht0 ht1
    rw [hgv t ht1]
  · rw [hm]
    rintro ⟨-, -, h5 | ⟨t, ht0, ht1, hval⟩⟩
    · norm_num at h5
    · rw [hgv t ht1] at hval
      norm_num at hval

/-- C4 (amended): whenever a sense request is answered, the intensity
delivered via `sendControlMsg` equals the maximum of the accumulated
total-power mapping over the CLOSED interval `[request arrival, now]` —
borders included — with a negative maximum (including the empty-mapping
sentinel) clamped to zero; the pair (occupancy flag, intensity) is
delivered to the requester and the outstanding-request record is
cleared. -/
theorem answerCSR_closed_interval_max (env : Env) (s : DeciderState)
    (req : ChannelSenseRequest) (hcsr : s.csrFirst = some req)
    (hab : s.csrSecond ≤ env.now) :
    ∃ I, answerCSR env s =
        ({ s with csrFirst := none },
         [PhyCall.sendControlMsg req ⟨s.isChannelIdle, I⟩]) ∧
      0 ≤ I ∧
      (∀ t, s.csrSecond ≤ t → t ≤ env.now →
        (calculateRSSIMapping env s.csrSecond env.now none).getValue t ≤ I) ∧
      (I = 0 ∨ ∃ t, s.csrSecond ≤ t ∧ t ≤ env.now ∧
        (calculateRSSIMapping env s.csrSecond env.now none).getValue t = I) := by
  have hform : answerCSR env s =
      ({ s with csrFirst := none },
       [PhyCall.sendControlMsg req
         ⟨s.isChannelIdle,
          if calcChannelSenseRSSI env s.csrSecond env.now < 0 then 0
          else calcChannelSenseRSSI env s.csrSecond env.now⟩]) := by
    unfold answerCSR
    rw [hcsr]
  have hfm : calcChannelSenseRSSI env s.csrSecond env.now =
      (calculateRSSIMapping env s.csrSecond env.now none).findMax
        s.csrSecond env.now := rfl
  refine ⟨if calcChannelSenseRSSI env s.csrSecond env.now < 0 then 0
          else calcChannelSenseRSSI env s.csrSecond env.now, hform, ?_, ?_, ?_⟩
  · by_cases h : calcChannelSenseRSSI env s.csrSecond env.now < 0
    · rw [if_pos h]
    · rw [if_neg h]
      exact le_of_not_lt h
  · intro t h1 h2
    by_cases hme : (calculateRSSIMapping env s.csrSecond env.now none).entries = []
    · rw [getValue_empty_entries hme]
      by_cases h : calcChannelSenseRSSI env s.csrSecond env.now < 0
      · rw [if_pos h]
      · rw [if_neg h]
        exact le_of_not_lt h
    · have hub := findMax_ub (calculateRSSIMapping env s.csrSecond env.now none)
        hme h1 h2
      rw [← hfm] at hub
      by_cases h : calcChannelSenseRSSI env s.csrSecond env.now < 0
      · rw [if_pos h]
        exact le_trans hub (le_of_lt h)
      · rw [if_neg h]
        exact hub
  · by_cases h : calcChannelSenseRSSI env s.csrSecond env.now < 0
    · left
      rw [if_pos h]
    · by_cases hme : (calculateRSSIMapping env s.csrSecond env.now none).entries = []
      · exfalso
        apply h
        rw [hfm, findMax_empty hme]
        exact neg_lt_zero.mpr dblMax_pos
      · right
        obtain ⟨t, h1, h2, h3⟩ := findMax_attained
          (calculateRSSIMapping env s.csrSecond env.now none) hme hab
        refine ⟨t, h1, h2, ?_⟩
        rw [if_neg h, hfm]
        exact h3

/-- Witness for the amended C4 at a concrete input. -/
theorem answerCSR_closed_interval_max_w :
    (⟨none, 0, true, some ⟨8, SenseMode.UNTIL_BUSY, 4⟩, 0, 1⟩
        : DeciderState).csrFirst = some ⟨8, SenseMode.UNTIL_BUSY, 4⟩ ∧
    (⟨none, 0, true, some ⟨8, SenseMode.UNTIL_BUSY, 4⟩, 0, 1⟩
        : DeciderState).csrSecond ≤
      (⟨1, fun _ _ => [⟨4, 1, 3, ⟨[(1, 5)]⟩⟩], fun _ _ => none⟩ : Env).now ∧
    (∃ I, answerCSR ⟨1, fun _ _ => [⟨4, 1, 3, ⟨[(1, 5)]⟩⟩], fun _ _ => none⟩
        ⟨none, 0, true, some ⟨8, SenseMode.UNTIL_BUSY, 4⟩, 0, 1⟩ =
        ({ (⟨none, 0, true, some ⟨8, SenseMode.UNTIL_BUSY, 4⟩, 0, 1⟩
            : DeciderState) with csrFirst := none },
         [PhyCall.sendControlMsg ⟨8, SenseMode.UNTIL_BUSY, 4⟩
           ⟨(⟨none, 0, true, some ⟨8, SenseMode.UNTIL_BUSY, 4⟩, 0, 1⟩
               : DeciderState).isChannelIdle, I⟩]) ∧
      0 ≤ I ∧
      (∀ t, (⟨none, 0, true, some ⟨8, SenseMode.UNTIL_BUSY, 4⟩, 0, 1⟩
          : DeciderState).csrSecond ≤ t →
        t ≤ (⟨1, fun _ _ => [⟨4, 1, 3, ⟨[(1, 5)]⟩⟩], fun _ _ => none⟩ : Env).now →
        (calculateRSSIMapping ⟨1, fun _ _ => [⟨4, 1, 3, ⟨[(1, 5)]⟩⟩],
          fun _ _ => none⟩
          (⟨none, 0, true, some ⟨8, SenseMode.UNTIL_BUSY, 4⟩, 0, 1⟩
            : DeciderState).csrSecond
          (⟨1, fun _ _ => [⟨4, 1, 3, ⟨[(1, 5)]⟩⟩], fun _ _ => none⟩ : Env).now
          none).getValue t ≤ I) ∧
      (I = 0 ∨ ∃ t, (⟨none, 0, true, some ⟨8, SenseMode.UNTIL_BUSY, 4⟩, 0, 1⟩
          : DeciderState).csrSecond ≤ t ∧
        t ≤ (⟨1, fun _ _ => [⟨4, 1, 3, ⟨[(1, 5)]⟩⟩], fun _ _ => none⟩ : Env).now ∧
        (calculateRSSIMapping ⟨1, fun _ _ => [⟨4, 1, 3, ⟨[(1, 5)]⟩⟩],
          fun _ _ => none⟩
          (⟨none, 0, true, some ⟨8, SenseMode.UNTIL_BUSY, 4⟩, 0, 1⟩
            : DeciderState).csrSecond
          (⟨1, fun _ _ => [⟨4, 1, 3, ⟨[(1, 5)]⟩⟩], fun _ _ => none⟩ : Env).now
          none).getValue t = I)) :=
  ⟨rfl, by norm_num,
   answerCSR_closed_interval_max ⟨1, fun _ _ => [⟨4, 1, 3, ⟨[(1, 5)]⟩⟩],
       fun _ _ => none⟩
     ⟨none, 0, true, some ⟨8, SenseMode.UNTIL_BUSY, 4⟩, 0, 1⟩
     ⟨8, SenseMode.UNTIL_BUSY, 4⟩ rfl (by norm_num)⟩

end Veins
